import Mathlib

/-
Verification of the arch-installer TUI and phase orchestrator.

Shallow embedding of src/arch-installer (main.py, utils/tui.py,
utils/disk.py, utils/system.py).  Interactive dialogs are modelled as
pure functions over a stream of key codes or submitted strings; the
step pipelines of main.py are modelled as pure functions from the
boolean results of the external collaborator calls to the recorded
step statuses, the phase result, and the trace of invoked actions.
-/

namespace Installer

/-- Step status as used by the progress screens of main.py
("pending", "current", "completed", "error"). -/
inductive Status
  | pending
  | current
  | completed
  | error
deriving DecidableEq, Repr

/-! ## Render surface: `TUI.safe_addstr` (utils/tui.py lines 41-50)

The curses screen is modelled as a grid of character rows.  Coordinates
are integers because Python callers could pass negative values; the
source checks `y >= 0 and y < self.height and x >= 0 and x < self.width`
and clips the text to `self.width - x - 1` characters. -/

/-- A character grid with its geometry, modelling the curses screen. -/
structure Grid where
  height : Nat
  width : Nat
  rows : List (List Char)
deriving DecidableEq, Repr

/-- Overwrite `row` starting at column `x` with `text`
(the effect of `stdscr.addstr(y, x, text)` on one row). -/
def writeRow (row : List Char) (x : Nat) (text : List Char) : List Char :=
  row.take x ++ text ++ row.drop (x + text.length)

/-- Model of `TUI.safe_addstr` (utils/tui.py lines 41-50): bounds check,
clip to `width - x - 1` characters, then write; out-of-range calls do
nothing. -/
def safe_addstr (g : Grid) (y x : Int) (text : List Char) : Grid :=
  if 0 ≤ y ∧ y < (g.height : Int) ∧ 0 ≤ x ∧ x < (g.width : Int) then
    let maxLen := g.width - x.toNat - 1
    let t := if maxLen < text.length then text.take maxLen else text
    { g with rows := g.rows.set y.toNat (writeRow (g.rows.getD y.toNat []) x.toNat t) }
  else g

/-! ## Menu dialog: `TUI.show_menu` (utils/tui.py lines 79-132)

One iteration of the input loop, as a function of the pressed key code.
Key codes follow curses: KEY_UP = 259, KEY_DOWN = 258, ord k = 107,
ord j = 106, newline = 10, space = 32, ord q = 113, ESC = 27. -/

/-- Outcome of one iteration of the `show_menu` loop: either keep
looping with a new selection, or return a value (`-1` is Cancelled). -/
inductive MenuOut
  | cont (selected : Nat)
  | ret (value : Int)
deriving DecidableEq, Repr

/-- Model of the key-handling branch of `TUI.show_menu`
(utils/tui.py lines 122-132). -/
def show_menu_step (numOptions selected key : Nat) : MenuOut :=
  if (key = 259 ∨ key = 107) ∧ selected > 0 then
    MenuOut.cont (selected - 1)
  else if (key = 258 ∨ key = 106) ∧ selected < numOptions - 1 then
    MenuOut.cont (selected + 1)
  else if key = 10 ∨ key = 32 then
    MenuOut.ret (Int.ofNat selected)
  else if key = 113 ∨ key = 27 then
    MenuOut.ret (-1)
  else
    MenuOut.cont selected

/-- Run the `show_menu` loop over a list of key codes, starting from
`selected`; `none` means the key stream ran out while still looping. -/
def show_menu_run (numOptions : Nat) : List Nat → Nat → Option Int
  | [], _ => none
  | k :: ks, selected =>
    match show_menu_step numOptions selected k with
    | MenuOut.cont s => show_menu_run numOptions ks s
    | MenuOut.ret v => some v

/-! ## Text input dialog: `TUI.show_text_input` (utils/tui.py lines 134-169)

The stream of raw submissions (results of `textbox.edit()`) is a list;
the source strips each submission, substitutes the default for an empty
submission when a default exists, and returns when
`result or not default`. -/

/-- Drop leading and trailing whitespace from a character list. -/
def stripChars (l : List Char) : List Char :=
  ((l.dropWhile Char.isWhitespace).reverse.dropWhile Char.isWhitespace).reverse

/-- Model of Python `str.strip()` with no argument. -/
def pyStrip (s : String) : String := String.mk (stripChars s.data)

/-- Model of `TUI.show_text_input` (utils/tui.py lines 134-169), applied
to the stream of raw text submissions. -/
def show_text_input (dflt : String) : List String → Option String
  | [] => none
  | raw :: rest =>
    let result := pyStrip raw
    let result2 := if result = "" ∧ dflt ≠ "" then dflt else result
    if result2 ≠ "" ∨ dflt = "" then some result2
    else show_text_input dflt rest

/-! ## Password collection loop (main.py lines 185-233)

One credential's `while True` loop: prompt a password; if it is empty,
show an error and retry (consuming only that one input); if non-empty,
prompt a confirmation; on match return the password, on mismatch show
an error and retry from scratch.  The model consumes the stream of
values returned by `show_password_input` and also counts the failed
rounds before success. -/

/-- Model of one credential's retry loop in `ArchInstaller.get_passwords`
(main.py lines 188-208): returns the accepted password and the number
of failed rounds, or `none` if the input stream runs out. -/
def get_password_loop : List String → Option (String × Nat)
  | [] => none
  | p :: rest =>
    if p = "" then
      (get_password_loop rest).map (fun rk => (rk.1, rk.2 + 1))
    else
      match rest with
      | [] => none
      | c :: rest2 =>
        if p = c then some (p, 0)
        else (get_password_loop rest2).map (fun rk => (rk.1, rk.2 + 1))

/-! ## Step pipeline (main.py, pattern of `install_system` lines 268-342
and `phase2_system_configuration` lines 366-433)

Each phase is a `try` block that runs collaborator calls in order and
raises on the first failure; the `except` handler marks the step that
was `current` as `error` and returns `False`.  The runner is
parameterised by the collaborator results (`act`), takes the list of
(exception message, action id) pairs, and records which actions were
invoked. -/

/-- The observable outcome of running one phase: the boolean result,
the exception message surfaced on failure, the final step statuses, and
the ordered trace of invoked action ids. -/
structure PhaseRun where
  success : Bool
  reason : Option String
  statuses : List Status
  invoked : List Nat
deriving DecidableEq, Repr

/-- Model of the per-phase try/except step pattern of main.py: run each
step's action in order; on success the step ends `completed`; on the
first failure the step ends `error`, later steps stay `pending` and are
never invoked, and the exception message becomes the phase's reason. -/
def run_steps (act : Nat → Bool) : List (String × Nat) → PhaseRun
  | [] => { success := true, reason := none, statuses := [], invoked := [] }
  | (msg, a) :: rest =>
    if act a then
      let r := run_steps act rest
      { success := r.success, reason := r.reason,
        statuses := Status.completed :: r.statuses, invoked := a :: r.invoked }
    else
      { success := false, reason := some msg,
        statuses := Status.error :: rest.map (fun _ => Status.pending),
        invoked := [a] }

/-- Collaborator results for `phase2_system_configuration`
(main.py lines 366-433). -/
structure Phase2Env where
  timezoneOk : Bool
  localesOk : Bool
  hostnameOk : Bool
  networkOk : Bool
  usersOk : Bool
  bootloaderOk : Bool
deriving DecidableEq, Repr

/-- Action results of phase 2, indexed in source order; step 2 of the
source makes two collaborator calls (hostname, then network). -/
def phase2_actions (e : Phase2Env) : Nat → Bool
  | 0 => e.timezoneOk
  | 1 => e.localesOk
  | 2 => e.hostnameOk && e.networkOk
  | 3 => e.usersOk
  | _ => e.bootloaderOk

/-- Model of `ArchInstaller.phase2_system_configuration`
(main.py lines 366-433) as an instance of the step pattern; the
exception message of the combined hostname/network step is the message
of whichever call failed first. -/
def phase2_system_configuration (e : Phase2Env) : PhaseRun :=
  run_steps (phase2_actions e)
    [("Failed to setup timezone", 0),
     ("Failed to setup locales", 1),
     ((if e.hostnameOk then "Failed to setup network" else "Failed to setup hostname"), 2),
     ("Failed to setup users", 3),
     ("Failed to setup bootloader", 4)]

/-! ## BaseInstall phase: `cleanup_disk` (utils/disk.py lines 62-105) and
`ArchInstaller.install_system` (main.py lines 268-342)

The destructive shell commands are modelled as an invocation trace.
`cleanup_disk` checks `is_iso_device` first and returns `False` before
issuing any command when the check fires; otherwise it performs the
cleanup commands (the extra `umount -f disk*` only when `mount | grep
disk` reported something) and always returns `True`. -/

/-- External commands that `install_system` and `cleanup_disk` can
issue against the selected disk. -/
inductive DiskAction
  | swapoffAll
  | umountRecursive
  | umountDiskParts
  | fuserKill
  | wipefsSignatures
  | partprobe
  | rereadpt
  | partitionUEFI
  | partitionBIOS
  | formatPartitions
  | mountPartitions
  | pacstrapBase
  | generateFstab
deriving DecidableEq, Repr

/-- Environment of `install_system`: the result of the `is_iso_device`
check on the selected disk, whether `mount | grep disk` reported mounted
partitions, the firmware type, and the results of the partition, format,
mount, pacstrap and genfstab collaborator calls. -/
structure InstallEnv where
  isIso : Bool
  anyMounted : Bool
  uefi : Bool
  partitionOk : Bool
  formatOk : Bool
  mountOk : Bool
  pacstrapOk : Bool
  fstabOk : Bool
deriving DecidableEq, Repr

/-- Model of `cleanup_disk` (utils/disk.py lines 62-105): refuse with no
command issued when the disk looks like the ISO device; otherwise issue
the cleanup commands and return `True`. -/
def cleanup_disk (isIso anyMounted : Bool) : Bool × List DiskAction :=
  if isIso then (false, [])
  else
    (true,
      [DiskAction.swapoffAll, DiskAction.umountRecursive] ++
      (if anyMounted then [DiskAction.umountDiskParts] else []) ++
      [DiskAction.fuserKill, DiskAction.wipefsSignatures,
       DiskAction.partprobe, DiskAction.rereadpt])

/-- Model of `ArchInstaller.install_system` (main.py lines 268-342):
cleanup, partition (UEFI or BIOS), format, mount, pacstrap, genfstab,
stopping at the first failure; returns the phase result and the trace
of issued disk commands. -/
def install_system (e : InstallEnv) : Bool × List DiskAction :=
  let c := cleanup_disk e.isIso e.anyMounted
  if c.1 = false then (false, c.2)
  else
    let partAct := if e.uefi then DiskAction.partitionUEFI else DiskAction.partitionBIOS
    let t1 := c.2 ++ [partAct]
    if e.partitionOk = false then (false, t1)
    else
      let t2 := t1 ++ [DiskAction.formatPartitions]
      if e.formatOk = false then (false, t2)
      else
        let t3 := t2 ++ [DiskAction.mountPartitions]
        if e.mountOk = false then (false, t3)
        else
          let t4 := t3 ++ [DiskAction.pacstrapBase]
          if e.pacstrapOk = false then (false, t4)
          else
            let t5 := t4 ++ [DiskAction.generateFstab]
            if e.fstabOk = false then (false, t5)
            else (true, t5)

/-! ## SystemChecks phase: `ArchInstaller.system_checks`
(main.py lines 45-88) -/

/-- Model of `ArchInstaller.system_checks` (main.py lines 45-88) as a
function of the internet check, the clock sync result and the firmware
type; returns the phase result and the final step list. -/
def system_checks (internet clockOk uefi : Bool) : Bool × List (String × Status) :=
  if internet = false then
    (false,
      [("Internet connection check", Status.error),
       ("Synchronizing system clock...", Status.pending),
       ("Detecting system type...", Status.pending)])
  else
    (true,
      [("Internet connection verified", Status.completed),
       (if clockOk then ("System clock synchronized", Status.completed)
        else ("Clock sync failed (continuing anyway)", Status.completed)),
       ("System type detected: " ++ (if uefi then "UEFI" else "BIOS"), Status.completed)])

/-! ## Terminal-size check: `TUI.init_screen` (utils/tui.py lines 18-39)
and the top-level handler in `ArchInstaller.run` (main.py lines 512-570) -/

/-- The exact message of the size-check exception raised by
`TUI.init_screen` (utils/tui.py line 39). -/
def terminal_too_small_msg (width height : Nat) : String :=
  "Terminal too small! Need at least 60x20, got " ++
    toString width ++ "x" ++ toString height

/-- Model of the geometry check of `TUI.init_screen` (utils/tui.py
lines 35-39): fail when the terminal is under 60 columns by 20 rows. -/
def init_screen (height width : Nat) : Except String Unit :=
  if height < 20 ∨ width < 60 then
    Except.error (terminal_too_small_msg width height)
  else Except.ok ()

/-- Substring test, modelling the Python `in` operator on strings:
`pat` occurs (as a contiguous run) somewhere in `s`. -/
def strContainsSub (s pat : String) : Bool :=
  (List.range (s.data.length + 1)).any (fun i => pat.data.isPrefixOf (s.data.drop i))

/-- Top-level outcome of `ArchInstaller.run`: a plain printed
diagnostic, an error rendered through the TUI, or normal phase
execution. -/
inductive RunOutcome
  | plainDiagnostic (msg : String)
  | uiError (msg : String)
  | phasesStarted
deriving DecidableEq, Repr

/-- Model of the screen-init part of `ArchInstaller.run` (main.py lines
512-570): `init_screen` runs first; an exception whose message contains
"Terminal too small" is printed plainly and no phase runs; otherwise
the phase sequence begins with the welcome screen. -/
def installer_run (height width : Nat) : RunOutcome × List String :=
  match init_screen height width with
  | Except.error msg =>
    if strContainsSub msg "Terminal too small" then
      (RunOutcome.plainDiagnostic msg, [])
    else (RunOutcome.uiError msg, [])
  | Except.ok _ => (RunOutcome.phasesStarted, ["welcome_screen"])

/-! ## Summary screen: `TUI.show_summary` (utils/tui.py lines 288-308) -/

/-- The wizard config read by `show_summary`; optional fields model
`dict.get`, with `none` for a missing key. -/
structure Config where
  uefi : Bool
  disk : Option String
  hostname : Option String
  username : Option String
  timezone : Option String
  locale : Option String
  root_password : Option String
  user_password : Option String
deriving DecidableEq, Repr

/-- Python truthiness of `config.get(key)` for a string-valued key:
present and non-empty. -/
def truthy : Option String → Bool
  | none => false
  | some s => s != ""

/-- The lines rendered by `TUI.show_summary` (utils/tui.py lines
290-303); passwords appear only as "Set" or "Not set". -/
def summary_lines (c : Config) : List String :=
  ["Installation Configuration:",
   "",
   "System Type:     " ++ (if c.uefi then "UEFI" else "BIOS"),
   "Target Disk:     " ++ c.disk.getD "Not selected",
   "Hostname:        " ++ c.hostname.getD "arch",
   "Username:        " ++ c.username.getD "user",
   "Timezone:        " ++ c.timezone.getD "UTC",
   "Locale:          " ++ c.locale.getD "en_US.UTF-8",
   "Root Password:   " ++ (if truthy c.root_password then "Set" else "Not set"),
   "User Password:   " ++ (if truthy c.user_password then "Set" else "Not set"),
   "",
   "WARNING: This will PERMANENTLY ERASE the selected disk!"]

/-- The two options of `TUI.show_confirmation` (utils/tui.py line 202). -/
def confirmation_options : List String := ["Yes", "No"]

/-- Initial highlighted option index of `TUI.show_confirmation`
(utils/tui.py line 203): 0 for Yes when the default is Yes, else 1. -/
def show_confirmation_start (dflt : Bool) : Nat := if dflt then 0 else 1

/-- Model of `TUI.show_summary` (utils/tui.py lines 288-308): the
rendered lines plus the `default` flag it passes to the confirmation
dialog (`False`, i.e. No). -/
def show_summary (c : Config) : List String × Bool := (summary_lines c, false)

/-! ## Theorems -/

/-- Claim C1: if the install-medium check fires for the selected disk,
the BaseInstall phase returns failure with no partition command and no
destructive cleanup command issued on that disk. -/
theorem base_install_refuses_iso_disk (e : InstallEnv) (h : e.isIso = true) :
    (install_system e).1 = false ∧
    (install_system e).2 = [] ∧
    DiskAction.partitionUEFI ∉ (install_system e).2 ∧
    DiskAction.partitionBIOS ∉ (install_system e).2 := by
  simp [install_system, cleanup_disk, h]

/-- A concrete environment whose selected disk is detected as the
install medium. -/
def isoEnv : InstallEnv :=
  { isIso := true, anyMounted := true, uefi := true, partitionOk := true,
    formatOk := true, mountOk := true, pacstrapOk := true, fstabOk := true }

/-- Witness for claim C1 at a concrete environment. -/
theorem base_install_refuses_iso_disk_witness :
    (install_system isoEnv).1 = false ∧
    (install_system isoEnv).2 = [] ∧
    DiskAction.partitionUEFI ∉ (install_system isoEnv).2 ∧
    DiskAction.partitionBIOS ∉ (install_system isoEnv).2 :=
  base_install_refuses_iso_disk isoEnv rfl

/-- Claim C2: in a step pipeline with steps A, B, C where A's action
succeeds and B's fails, the recorded statuses are A completed and B
error, C stays pending and is never invoked, and the phase fails with
the failed step's message as the reason. -/
theorem step_pipeline_fail_fast (act : Nat → Bool) (mA mB mC : String)
    (hA : act 0 = true) (hB : act 1 = false) :
    run_steps act [(mA, 0), (mB, 1), (mC, 2)] =
      { success := false, reason := some mB,
        statuses := [Status.completed, Status.error, Status.pending],
        invoked := [0, 1] } ∧
    2 ∉ (run_steps act [(mA, 0), (mB, 1), (mC, 2)]).invoked := by
  have h1 : run_steps act [(mA, 0), (mB, 1), (mC, 2)] =
      { success := false, reason := some mB,
        statuses := [Status.completed, Status.error, Status.pending],
        invoked := [0, 1] } := by
    simp [run_steps, hA, hB]
  exact ⟨h1, by rw [h1]; simp⟩

/-- Witness for claim C2 at concrete messages and action results. -/
theorem step_pipeline_fail_fast_witness :
    run_steps (fun n => n == 0)
        [("step A failed", 0), ("step B failed", 1), ("step C failed", 2)] =
      { success := false, reason := some "step B failed",
        statuses := [Status.completed, Status.error, Status.pending],
        invoked := [0, 1] } ∧
    2 ∉ (run_steps (fun n => n == 0)
        [("step A failed", 0), ("step B failed", 1), ("step C failed", 2)]).invoked :=
  step_pipeline_fail_fast (fun n => n == 0)
    "step A failed" "step B failed" "step C failed" rfl rfl

/-- Claim C10: the SystemChecks phase returns exactly the result of the
internet check; a clock-sync failure is still recorded as a completed
step labelled "continuing anyway". -/
theorem system_checks_clock_tolerant (internet clockOk uefi : Bool) :
    (system_checks internet clockOk uefi).1 = internet ∧
    (internet = true → clockOk = false →
      (system_checks internet clockOk uefi).2.get? 1 =
        some ("Clock sync failed (continuing anyway)", Status.completed)) := by
  cases internet <;> cases clockOk <;> simp [system_checks]

/-- Witness for claim C10 with internet up and clock sync failing. -/
theorem system_checks_clock_tolerant_witness :
    (system_checks true false true).2.get? 1 =
      some ("Clock sync failed (continuing anyway)", Status.completed) :=
  (system_checks_clock_tolerant true false true).2 rfl rfl

/-- Claim C9: the summary screen depends only on the non-password
fields and on whether each password is set, never on a password's
value, and the final confirmation defaults to No (highlighted index 1,
the "No" option). -/
theorem summary_masks_passwords (c1 c2 : Config)
    (hu : c1.uefi = c2.uefi) (hd : c1.disk = c2.disk)
    (hh : c1.hostname = c2.hostname) (hn : c1.username = c2.username)
    (ht : c1.timezone = c2.timezone) (hl : c1.locale = c2.locale)
    (hr : truthy c1.root_password = truthy c2.root_password)
    (hp : truthy c1.user_password = truthy c2.user_password) :
    summary_lines c1 = summary_lines c2 ∧
    (show_summary c1).2 = false ∧
    confirmation_options.get? (show_confirmation_start (show_summary c1).2) =
      some "No" := by
  refine ⟨?_, rfl, rfl⟩
  simp [summary_lines, hu, hd, hh, hn, ht, hl, hr, hp]

/-- A concrete config with both passwords set. -/
def cfgA : Config :=
  { uefi := true, disk := some "/dev/sda", hostname := some "arch",
    username := some "user", timezone := some "UTC",
    locale := some "en_US.UTF-8", root_password := some "secret1",
    user_password := some "hunter2" }

/-- The same config with different password values of equal
set-status. -/
def cfgB : Config :=
  { cfgA with root_password := some "other", user_password := some "pw" }

/-- Witness for claim C9 at two configs differing only in password
values. -/
theorem summary_masks_passwords_witness :
    summary_lines cfgA = summary_lines cfgB ∧
    (show_summary cfgA).2 = false ∧
    confirmation_options.get? (show_confirmation_start (show_summary cfgA).2) =
      some "No" :=
  summary_masks_passwords cfgA cfgB rfl rfl rfl rfl rfl rfl rfl rfl

/-- Claim C5: with a non-empty default, an empty submission makes the
text input dialog return exactly the default, and the dialog never
returns an empty string. -/
theorem text_input_default_on_empty (dflt raw : String) (rest : List String)
    (hd : dflt ≠ "") (hr : pyStrip raw = "") :
    show_text_input dflt (raw :: rest) = some dflt ∧
    ∀ inputs r, show_text_input dflt inputs = some r → r ≠ "" := by
  constructor
  · simp [show_text_input, hr, hd]
  · intro inputs
    induction inputs with
    | nil => intro r h; simp [show_text_input] at h
    | cons raw2 rest2 ih =>
      intro r h
      simp only [show_text_input] at h
      by_cases h2 : pyStrip raw2 = "" ∧ dflt ≠ ""
      · rw [if_pos h2, if_pos (Or.inl h2.2)] at h
        intro hre
        exact hd ((Option.some.inj h).trans hre)
      · rw [if_neg h2] at h
        by_cases h3 : pyStrip raw2 ≠ "" ∨ dflt = ""
        · rw [if_pos h3] at h
          intro hre
          rcases h3 with h4 | h4
          · exact h4 ((Option.some.inj h).trans hre)
          · exact hd h4
        · rw [if_neg h3] at h
          exact ih r h

/-- Witness for claim C5 at default "arch" and an empty submission. -/
theorem text_input_default_on_empty_witness :
    show_text_input "arch" [""] = some "arch" :=
  (text_input_default_on_empty "arch" "" [] (by decide) (by decide)).1

/-- Claim C6, counterexample: with no default, an empty submission does
not make the dialog loop; it returns the empty string at once. -/
theorem text_input_empty_counterexample :
    show_text_input "" [""] = some "" := by decide

/-- Claim C6 as amended: with no default, the dialog returns on the
very first submission, yielding its stripped value even when that value
is empty (callers treat the empty return as a cancellation). -/
theorem text_input_no_default_returns_first (raw : String) (rest : List String) :
    show_text_input "" (raw :: rest) = some (pyStrip raw) := by
  simp [show_text_input]

/-- The key-handling branch of `show_menu` keeps the selection below
the number of options whenever it keeps looping. -/
theorem menu_step_range (n selected key : Nat) (hs : selected < n) (s : Nat)
    (h : show_menu_step n selected key = MenuOut.cont s) : s < n := by
  unfold show_menu_step at h
  repeat' split at h
  all_goals first
    | (injection h with h; omega)
    | injection h

/-- The key-handling branch of `show_menu` only returns the Cancelled
sentinel or the current selection. -/
theorem menu_step_ret (n selected key : Nat) (w : Int)
    (h : show_menu_step n selected key = MenuOut.ret w) :
    w = -1 ∨ w = Int.ofNat selected := by
  unfold show_menu_step at h
  repeat' split at h
  all_goals first
    | (injection h with h; omega)
    | injection h

/-- Any value returned by the `show_menu` loop from an in-range start
is the Cancelled sentinel or an in-range selection. -/
theorem menu_run_in_range (n : Nat) :
    ∀ (keys : List Nat) (selected : Nat) (v : Int), selected < n →
      show_menu_run n keys selected = some v →
      v = -1 ∨ ∃ m, m < n ∧ v = Int.ofNat m := by
  intro keys
  induction keys with
  | nil => intro selected v _ h; simp [show_menu_run] at h
  | cons k ks ih =>
    intro selected v hs h
    cases hstep : show_menu_step n selected k with
    | cont s =>
      simp only [show_menu_run, hstep] at h
      exact ih s v (menu_step_range n selected k hs s hstep) h
    | ret w =>
      simp only [show_menu_run, hstep, Option.some.injEq] at h
      rcases menu_step_ret n selected k w hstep with h1 | h1
      · exact Or.inl (by omega)
      · exact Or.inr ⟨selected, hs, by omega⟩

/-- Claim C3: in the menu dialog over `n` options with an in-range
selection, every key keeps the selection in range, Up and k at index 0
are no-ops, Down and j at the last index are no-ops, Enter and Space
return the current selection, Escape and q return the Cancelled
sentinel `-1`, and every value the loop ever returns is `-1` or an
in-range index. -/
theorem menu_selection_invariants (n selected key : Nat)
    (hn : 1 ≤ n) (hs : selected < n) :
    (∀ s, show_menu_step n selected key = MenuOut.cont s → s < n) ∧
    ((key = 259 ∨ key = 107) → selected = 0 →
      show_menu_step n selected key = MenuOut.cont 0) ∧
    ((key = 258 ∨ key = 106) → selected = n - 1 →
      show_menu_step n selected key = MenuOut.cont (n - 1)) ∧
    ((key = 10 ∨ key = 32) →
      show_menu_step n selected key = MenuOut.ret (Int.ofNat selected)) ∧
    ((key = 113 ∨ key = 27) →
      show_menu_step n selected key = MenuOut.ret (-1)) ∧
    (∀ (keys : List Nat) (v : Int), show_menu_run n keys selected = some v →
      v = -1 ∨ ∃ m, m < n ∧ v = Int.ofNat m) := by
  refine ⟨menu_step_range n selected key hs, ?_, ?_, ?_, ?_,
    fun keys v h => menu_run_in_range n keys selected v hs h⟩
  · rintro (rfl | rfl) rfl <;> simp [show_menu_step]
  · rintro (rfl | rfl) rfl <;> simp [show_menu_step]
  · rintro (rfl | rfl) <;> simp [show_menu_step]
  · rintro (rfl | rfl) <;> simp [show_menu_step]

/-- Witness for claim C3: Escape cancels from index 1 of a 3-option
menu. -/
theorem menu_selection_invariants_witness :
    show_menu_step 3 1 27 = MenuOut.ret (-1) :=
  (menu_selection_invariants 3 1 27 (by decide) (by decide)).2.2.2.2.1 (Or.inr rfl)

/-- Claim C4, counterexample: on the stream
["", "ok123", "ok123", "different", "match1", "match1"] the password
loop resolves to "ok123" after one failed round, not to "match1" after
two, because the code prompts no confirmation for an empty password and
so consumes only one input in the empty-reject round. -/
theorem password_stream_counterexample :
    get_password_loop ["", "ok123", "ok123", "different", "match1", "match1"] =
      some ("ok123", 1) ∧ ("ok123" : String) ≠ "match1" := by
  exact ⟨rfl, by decide⟩

/-- Bounded-length induction core for the password-loop exit
property. -/
theorem password_loop_exits_aux (n : Nat) :
    ∀ (s : List String), s.length ≤ n → ∀ (r : String) (k : Nat),
      get_password_loop s = some (r, k) →
      r ≠ "" ∧ ∃ i, s.get? i = some r ∧ s.get? (i + 1) = some r := by
  induction n with
  | zero =>
    intro s hs r k h
    have hnil : s = [] := List.length_eq_zero.mp (Nat.le_zero.mp hs)
    subst hnil
    simp [get_password_loop] at h
  | succ n ih =>
    intro s hs r k h
    cases s with
    | nil => simp [get_password_loop] at h
    | cons p rest =>
      unfold get_password_loop at h
      by_cases hp : p = ""
      · rw [if_pos hp] at h
        cases hrec : get_password_loop rest with
        | none => rw [hrec] at h; simp at h
        | some rk =>
          rw [hrec] at h
          simp only [Option.map_some', Option.some.injEq, Prod.mk.injEq] at h
          obtain ⟨hr, hk⟩ := h
          have hlen : rest.length ≤ n := by
            simp only [List.length_cons] at hs; omega
          obtain ⟨hne, i, h1, h2⟩ := ih rest hlen rk.1 rk.2 (by rw [hrec])
          rw [← hr]
          exact ⟨hne, i + 1, by simpa using h1, by simpa using h2⟩
      · rw [if_neg hp] at h
        cases rest with
        | nil => dsimp only at h; simp at h
        | cons c rest2 =>
          dsimp only at h
          by_cases hpc : p = c
          · rw [if_pos hpc] at h
            simp only [Option.some.injEq, Prod.mk.injEq] at h
            obtain ⟨hr, hk⟩ := h
            rw [← hr]
            exact ⟨hp, 0, rfl, by simp [hpc]⟩
          · rw [if_neg hpc] at h
            cases hrec : get_password_loop rest2 with
            | none => rw [hrec] at h; simp at h
            | some rk =>
              rw [hrec] at h
              simp only [Option.map_some', Option.some.injEq, Prod.mk.injEq] at h
              obtain ⟨hr, hk⟩ := h
              have hlen : rest2.length ≤ n := by
                simp only [List.length_cons] at hs; omega
              obtain ⟨hne, i, h1, h2⟩ := ih rest2 hlen rk.1 rk.2 (by rw [hrec])
              rw [← hr]
              exact ⟨hne, (i + 1) + 1, by simpa using h1, by simpa using h2⟩

/-- Claim C4 as amended: the password loop only exits with a non-empty
password obtained as two equal consecutive inputs (a password and its
immediately following confirmation), and on the stream
["", "ok123", "ok123", "different", "match1", "match1"] it resolves to
"ok123" after one failed (empty-reject) round. -/
theorem password_loop_amended :
    (∀ (s : List String) (r : String) (k : Nat),
      get_password_loop s = some (r, k) →
      r ≠ "" ∧ ∃ i, s.get? i = some r ∧ s.get? (i + 1) = some r) ∧
    get_password_loop ["", "ok123", "ok123", "different", "match1", "match1"] =
      some ("ok123", 1) :=
  ⟨fun s r k h => password_loop_exits_aux s.length s le_rfl r k h, rfl⟩

/-- Witness for the amended claim C4 on the stream ["a", "a"]. -/
theorem password_loop_amended_witness :
    ("a" : String) ≠ "" ∧
    ∃ i, (["a", "a"] : List String).get? i = some "a" ∧
      (["a", "a"] : List String).get? (i + 1) = some "a" :=
  password_loop_amended.1 ["a", "a"] "a" 0 rfl

/-- Claim C7: `safe_addstr` is a no-op on any out-of-range coordinate
(and, being a total function, raises nothing), and on in-range
coordinates it behaves exactly as if the text were first clipped to
`width - x - 1` characters. -/
theorem safe_addstr_clips_and_noops (g : Grid) (y x : Int) (text : List Char) :
    ((y < 0 ∨ (g.height : Int) ≤ y ∨ x < 0 ∨ (g.width : Int) ≤ x) →
      safe_addstr g y x text = g) ∧
    (0 ≤ y → y < (g.height : Int) → 0 ≤ x → x < (g.width : Int) →
      safe_addstr g y x text =
        safe_addstr g y x (text.take (g.width - x.toNat - 1))) := by
  constructor
  · intro h
    unfold safe_addstr
    rw [if_neg]
    rintro ⟨h1, h2, h3, h4⟩
    rcases h with h | h | h | h <;> omega
  · intro h1 h2 h3 h4
    have hc : 0 ≤ y ∧ y < (g.height : Int) ∧ 0 ≤ x ∧ x < (g.width : Int) :=
      ⟨h1, h2, h3, h4⟩
    have ht : (if g.width - x.toNat - 1 < text.length
          then text.take (g.width - x.toNat - 1) else text)
        = (if g.width - x.toNat - 1 < (text.take (g.width - x.toNat - 1)).length
          then (text.take (g.width - x.toNat - 1)).take (g.width - x.toNat - 1)
          else text.take (g.width - x.toNat - 1)) := by
      by_cases hm : g.width - x.toNat - 1 < text.length
      · rw [if_pos hm, if_neg (by simp only [List.length_take]; omega)]
      · rw [if_neg hm, if_neg (by simp only [List.length_take]; omega),
          List.take_of_length_le (Nat.le_of_not_lt hm)]
    simp only [safe_addstr, if_pos hc]
    rw [ht]

/-- A concrete grid for the C7 witness. -/
def gridW : Grid :=
  { height := 2, width := 4,
    rows := [['a', 'b', 'c', 'd'], ['e', 'f', 'g', 'h']] }

/-- Witness for claim C7: a draw at column 9 of a 4-column grid leaves
the grid unchanged. -/
theorem safe_addstr_clips_and_noops_witness :
    safe_addstr gridW 0 9 ['z'] = gridW :=
  (safe_addstr_clips_and_noops gridW 0 9 ['z']).1 (by decide)

/-- A string that begins with `p` contains `p` as a substring. -/
theorem strContains_append (p rest : String) :
    strContainsSub (p ++ rest) p = true := by
  unfold strContainsSub
  rw [List.any_eq_true]
  refine ⟨0, by simp, ?_⟩
  simp only [List.drop_zero, String.data_append]
  exact List.isPrefixOf_iff_prefix.mpr (List.prefix_append _ _)

/-- The terminal-too-small message always contains the marker text the
top-level handler greps for. -/
theorem terminal_msg_contains (w h : Nat) :
    strContainsSub (terminal_too_small_msg w h) "Terminal too small" = true := by
  unfold strContainsSub terminal_too_small_msg
  rw [List.any_eq_true]
  refine ⟨0, by simp, ?_⟩
  simp only [List.drop_zero, String.data_append]
  apply List.isPrefixOf_iff_prefix.mpr
  have h1 : ("Terminal too small" : String).data <+:
      ("Terminal too small! Need at least 60x20, got " : String).data :=
    List.isPrefixOf_iff_prefix.mp (by decide)
  exact h1.trans ((List.prefix_append _ _).trans
    ((List.prefix_append _ _).trans (List.prefix_append _ _)))

/-- Claim C8: a geometry under 60 columns by 20 rows makes `init_screen`
fail with the terminal-too-small message carrying the detected width and
height; the top-level handler then prints a plain diagnostic instead of
rendering through the TUI, and no installation phase runs. -/
theorem small_terminal_plain_diagnostic (height width : Nat)
    (h : width < 60 ∨ height < 20) :
    init_screen height width =
      Except.error (terminal_too_small_msg width height) ∧
    (installer_run height width).1 =
      RunOutcome.plainDiagnostic (terminal_too_small_msg width height) ∧
    (installer_run height width).2 = [] := by
  have hinit : init_screen height width =
      Except.error (terminal_too_small_msg width height) := by
    unfold init_screen
    rw [if_pos (by omega)]
  refine ⟨hinit, ?_, ?_⟩ <;>
    simp [installer_run, hinit, terminal_msg_contains]

/-- Witness for claim C8 at a 50 by 10 terminal. -/
theorem small_terminal_plain_diagnostic_witness :
    init_screen 10 50 = Except.error (terminal_too_small_msg 50 10) ∧
    (installer_run 10 50).1 =
      RunOutcome.plainDiagnostic (terminal_too_small_msg 50 10) ∧
    (installer_run 10 50).2 = [] :=
  small_terminal_plain_diagnostic 10 50 (by decide)

end Installer
